import Mathlib

/-!
Verification of the event-ingest service (learning-go-by-building).

Shallow embedding of:
  - `src/pkg/model/event.go` : the `Event` struct (note: every field's json
    tag in the source reads `json:"id"`), and `Event.Validate`.
  - `src/unnamed/part_001` (the full `internal/handler/event_handler.go`):
    `handlePostEvent`, `handleHealth`, `httpError`.

The Go standard-library behaviour the handler relies on is embedded as well:
  - `strings.TrimSpace` with `unicode.IsSpace`,
  - `encoding/json` decoding (a JSON parser, the struct field-name table with
    its conflict rule, `DisallowUnknownFields`, `Decoder.More`),
  - `http.MaxBytesReader` as a cap on the bytes the decoder may consume.
-/

/-- Set of runes accepted by Go's `unicode.IsSpace` (the Latin-1 cases plus
the White_Space code points used by `strings.TrimSpace`). -/
def isGoSpace (c : Char) : Bool :=
  let n := c.toNat
  n = 9 || n = 10 || n = 11 || n = 12 || n = 13 || n = 32 ||
  n = 133 || n = 160 || n = 0x1680 || (0x2000 ≤ n && n ≤ 0x200A) ||
  n = 0x2028 || n = 0x2029 || n = 0x202F || n = 0x205F || n = 0x3000

/-- Go `strings.TrimSpace`: drop leading and trailing white space. -/
def TrimSpace (s : String) : String :=
  String.mk (((s.toList.dropWhile isGoSpace).reverse.dropWhile isGoSpace).reverse)

/-- Model of Go `time.Time` for this service: an instant (`ticks`, zero being
the zero `time.Time`) together with whether the location is UTC.  `IsZero`
in Go inspects only the instant, not the location. -/
structure GoTime where
  ticks : Nat
  utc : Bool

/-- Go `time.Time.IsZero`. -/
def GoTime.IsZero (t : GoTime) : Bool :=
  t.ticks == 0

/-- Go `time.Time.UTC`: same instant, location set to UTC. -/
def GoTime.UTC (t : GoTime) : GoTime :=
  GoTime.mk t.ticks true

/-- JSON values (`encoding/json` token shapes); numbers keep their lexeme. -/
inductive JSON where
  | null : JSON
  | bool (b : Bool) : JSON
  | num (lexeme : String) : JSON
  | str (s : String) : JSON
  | arr (elems : List JSON) : JSON
  | obj (fields : List (String × JSON)) : JSON

/-- The `Event` struct of `pkg/model/event.go`: `ID`, `Type`, `Source`,
`Timestamp`, `Payload any`. -/
structure Event where
  ID : String
  /-- The Go field is named `Type`; `Type` is a Lean keyword, hence `Typ`. -/
  Typ : String
  Source : String
  Timestamp : GoTime
  Payload : Option JSON

/-- The zero value of the `Event` struct (what `var evt model.Event` holds). -/
def zeroEvent : Event :=
  Event.mk "" "" "" (GoTime.mk 0 true) none

/-- White space the `encoding/json` scanner skips between tokens. -/
def isJsonWs (c : Char) : Bool :=
  c = ' ' || c = '\t' || c = '\n' || c = '\r'

/-- Skip inter-token white space, as the json scanner does. -/
def skipWs (l : List Char) : List Char :=
  l.dropWhile isJsonWs

/-- ASCII decimal digit. -/
def isDigit (c : Char) : Bool :=
  48 ≤ c.toNat && c.toNat ≤ 57

/-- ASCII hexadecimal digit. -/
def isHexDigit (c : Char) : Bool :=
  isDigit c || (97 ≤ c.toNat && c.toNat ≤ 102) || (65 ≤ c.toNat && c.toNat ≤ 70)

/-- Value of a hexadecimal digit. -/
def hexVal (c : Char) : Nat :=
  if isDigit c then c.toNat - 48
  else if 97 ≤ c.toNat then c.toNat - 87
  else c.toNat - 55

/-- Single-character JSON string escapes. -/
def escMap (e : Char) : Option Char :=
  if e = '"' then some '"'
  else if e = '\\' then some '\\'
  else if e = '/' then some '/'
  else if e = 'b' then some (Char.ofNat 8)
  else if e = 'f' then some (Char.ofNat 12)
  else if e = 'n' then some '\n'
  else if e = 'r' then some '\r'
  else if e = 't' then some '\t'
  else none

/-- Parse the body of a JSON string after the opening quote: the decoded
characters and the input after the closing quote.  Raw control characters
are rejected, escapes (including unicode escapes) are decoded. -/
def parseStringBody : Nat → List Char → Option (List Char × List Char)
  | 0, _ => none
  | _, [] => none
  | fuel + 1, c :: rest =>
    if c = '"' then some ([], rest)
    else if c = '\\' then
      match rest with
      | [] => none
      | e :: rest2 =>
        if e = 'u' then
          match rest2 with
          | h1 :: h2 :: h3 :: h4 :: rest3 =>
            if isHexDigit h1 && isHexDigit h2 && isHexDigit h3 && isHexDigit h4 then
              match parseStringBody fuel rest3 with
              | some (s, r) =>
                some (Char.ofNat (((hexVal h1 * 16 + hexVal h2) * 16 + hexVal h3) * 16 + hexVal h4) :: s, r)
              | none => none
            else none
          | _ => none
        else
          match escMap e with
          | some ec =>
            match parseStringBody fuel rest2 with
            | some (s, r) => some (ec :: s, r)
            | none => none
          | none => none
    else if c.toNat < 32 then none
    else
      match parseStringBody fuel rest with
      | some (s, r) => some (c :: s, r)
      | none => none

/-- Parse a JSON number lexeme (Go's grammar: optional minus, an integer part
with no leading zero, optional fraction, optional exponent). -/
def parseNumber (l : List Char) : Option (List Char × List Char) :=
  let step1 : Option (List Char × List Char) :=
    match l with
    | [] => none
    | c :: r =>
      if c = '0' then some ([c], r)
      else if isDigit c then some (c :: r.takeWhile isDigit, r.dropWhile isDigit)
      else none
  match step1 with
  | none => none
  | some (ip, r1) =>
    let fr : List Char × List Char :=
      match r1 with
      | '.' :: r2 =>
        match r2.takeWhile isDigit with
        | [] => ([], r1)
        | ds => ('.' :: ds, r2.dropWhile isDigit)
      | _ => ([], r1)
    let r2 := fr.2
    let ex : List Char × List Char :=
      match r2 with
      | 'e' :: r3 =>
        match r3 with
        | '+' :: r4 =>
          match r4.takeWhile isDigit with
          | [] => ([], r2)
          | ds => ('e' :: '+' :: ds, r4.dropWhile isDigit)
        | '-' :: r4 =>
          match r4.takeWhile isDigit with
          | [] => ([], r2)
          | ds => ('e' :: '-' :: ds, r4.dropWhile isDigit)
        | _ =>
          match r3.takeWhile isDigit with
          | [] => ([], r2)
          | ds => ('e' :: ds, r3.dropWhile isDigit)
      | 'E' :: r3 =>
        match r3 with
        | '+' :: r4 =>
          match r4.takeWhile isDigit with
          | [] => ([], r2)
          | ds => ('E' :: '+' :: ds, r4.dropWhile isDigit)
        | '-' :: r4 =>
          match r4.takeWhile isDigit with
          | [] => ([], r2)
          | ds => ('E' :: '-' :: ds, r4.dropWhile isDigit)
        | _ =>
          match r3.takeWhile isDigit with
          | [] => ([], r2)
          | ds => ('E' :: ds, r3.dropWhile isDigit)
      | _ => ([], r2)
    some (ip ++ fr.1 ++ ex.1, ex.2)

mutual

/-- Parse one JSON value (after skipping leading white space), returning the
value and the unconsumed input immediately after it. -/
def parseValue : Nat → List Char → Option (JSON × List Char)
  | 0, _ => none
  | fuel + 1, l =>
    match skipWs l with
    | [] => none
    | c :: rest =>
      if c = '"' then
        match parseStringBody fuel rest with
        | some (s, r) => some (JSON.str (String.mk s), r)
        | none => none
      else if c = '\x7b' then
        match skipWs rest with
        | '\x7d' :: r => some (JSON.obj [], r)
        | l2 =>
          match parseMembers fuel l2 with
          | some (kvs, r) => some (JSON.obj kvs, r)
          | none => none
      else if c = '[' then
        match skipWs rest with
        | ']' :: r => some (JSON.arr [], r)
        | l2 =>
          match parseElems fuel l2 with
          | some (vs, r) => some (JSON.arr vs, r)
          | none => none
      else if c = 't' then
        match rest with
        | 'r' :: 'u' :: 'e' :: r => some (JSON.bool true, r)
        | _ => none
      else if c = 'f' then
        match rest with
        | 'a' :: 'l' :: 's' :: 'e' :: r => some (JSON.bool false, r)
        | _ => none
      else if c = 'n' then
        match rest with
        | 'u' :: 'l' :: 'l' :: r => some (JSON.null, r)
        | _ => none
      else if c = '-' then
        match parseNumber rest with
        | some (lex, r) => some (JSON.num (String.mk ('-' :: lex)), r)
        | none => none
      else if isDigit c then
        match parseNumber (c :: rest) with
        | some (lex, r) => some (JSON.num (String.mk lex), r)
        | none => none
      else none

/-- Parse the members of a non-empty JSON object, up to and including the
closing brace. -/
def parseMembers : Nat → List Char → Option (List (String × JSON) × List Char)
  | 0, _ => none
  | fuel + 1, l =>
    match skipWs l with
    | '"' :: r1 =>
      match parseStringBody fuel r1 with
      | some (k, r2) =>
        match skipWs r2 with
        | ':' :: r3 =>
          match parseValue fuel r3 with
          | some (v, r4) =>
            match skipWs r4 with
            | ',' :: r5 =>
              match parseMembers fuel r5 with
              | some (kvs, r6) => some ((String.mk k, v) :: kvs, r6)
              | none => none
            | '\x7d' :: r5 => some ([(String.mk k, v)], r5)
            | _ => none
          | none => none
        | _ => none
      | none => none
    | _ => none

/-- Parse the elements of a non-empty JSON array, up to and including the
closing bracket. -/
def parseElems : Nat → List Char → Option (List JSON × List Char)
  | 0, _ => none
  | fuel + 1, l =>
    match parseValue fuel l with
    | some (v, r1) =>
      match skipWs r1 with
      | ',' :: r2 =>
        match parseElems fuel r2 with
        | some (vs, r3) => some (v :: vs, r3)
        | none => none
      | ']' :: r2 => some ([v], r2)
      | _ => none
    | none => none

end

/-- Parse the first JSON value of a body, with fuel ample for any nesting
the input can hold. -/
def parseTop (l : List Char) : Option (JSON × List Char) :=
  parseValue (l.length + 1) l

/-- Go `Event.Validate` (event.go lines 25-40): returns `none` for nil error,
`some msg` for `errors.New(msg)`, checking `ID`, `Type`, `Source` in that
order with `strings.TrimSpace`. -/
def Event.Validate (e : Event) : Option String :=
  if TrimSpace e.ID = "" then some "ID is required."
  else if TrimSpace e.Typ = "" then some "Type is required."
  else if TrimSpace e.Source = "" then some "Source is required."
  else none

/-- Errors of the decode stage, mirroring what `json.Decoder.Decode` through
`http.MaxBytesReader` can return in this handler. -/
inductive DecodeErr where
  | syntaxErr : DecodeErr
  | bodyTooLarge : DecodeErr
  | typeMismatch : DecodeErr
  | unknownField (key : String) : DecodeErr

/-- Error text, as the handler's `err.Error()` renders it.  The texts for
`bodyTooLarge` and `unknownField` are Go's exact wording; a syntax or type
error's wording varies with the input, so a representative text stands in. -/
def DecodeErr.errString : DecodeErr → String
  | DecodeErr.syntaxErr => "invalid JSON syntax"
  | DecodeErr.bodyTooLarge => "http: request body too large"
  | DecodeErr.typeMismatch => "json: cannot unmarshal JSON value into Go value of type model.Event"
  | DecodeErr.unknownField k => "json: unknown field " ++ "\"" ++ k ++ "\""

/-- The json tag of each `Event` field exactly as `event.go` lines 13-19
write it: every one of the five fields is tagged `id`. -/
def eventFieldTags : List (String × String) :=
  [("ID", "id"), ("Typ", "id"), ("Source", "id"), ("Timestamp", "id"), ("Payload", "id")]

/-- How many struct fields carry a given json name. -/
def tagCount (n : String) : Nat :=
  (eventFieldTags.map Prod.snd).count n

/-- Go `encoding/json` field resolution: a json name is visible only when
exactly one field claims it; fields whose names collide at the same depth
with the same tagged-ness are all dropped (`typeFields`/`dominantField`).
With every tag of `Event` reading `id`, no name is visible. -/
def jsonNameVisible (n : String) : Bool :=
  tagCount n == 1

/-- Unmarshal one JSON value into `model.Event` under
`DisallowUnknownFields`: `null` leaves the zero value, an object's keys are
looked up in the visible-field table (the first unmatched key is reported,
as `d.saveError` keeps the first error), any other value is a type error.
Since no json name of `Event` is visible, no key ever assigns a field, so a
successful decode always yields the zero `Event`. -/
def decodeEvent : JSON → Except DecodeErr Event
  | JSON.null => Except.ok zeroEvent
  | JSON.obj kvs =>
    match kvs.find? (fun kv => !(jsonNameVisible kv.fst)) with
    | some kv => Except.error (DecodeErr.unknownField kv.fst)
    | none => Except.ok zeroEvent
  | _ => Except.error DecodeErr.typeMismatch

/-- The byte ceiling the handler installs: `http.MaxBytesReader(w, r.Body,
1<<20)`. -/
def maxBodyBytes : Nat := 1048576

/-- The handler's `dec.Decode(&evt)` behind `MaxBytesReader`: scan one JSON
value (a scan error surfaces first), fail with `MaxBytesError` if reading it
ran past the byte ceiling, then unmarshal it into the `Event` struct. -/
def goDecode (body : List Char) : Except DecodeErr (Event × List Char) :=
  match parseTop body with
  | none => Except.error DecodeErr.syntaxErr
  | some (v, rest) =>
    if body.length - rest.length > maxBodyBytes then Except.error DecodeErr.bodyTooLarge
    else
      match decodeEvent v with
      | Except.error e => Except.error e
      | Except.ok evt => Except.ok (evt, rest)

/-- Go `json.Decoder.More` after the first value: skip white space and
report whether a byte other than a closing bracket or brace follows. -/
def goMore (rest : List Char) : Bool :=
  match skipWs rest with
  | [] => false
  | c :: _ => !(c = ']' || c = '\x7d')

/-- Body of an HTTP response this handler can write: the error object
`httpError` encodes, the acceptance object of `handlePostEvent`, or the raw
text of `handleHealth`. -/
inductive RespBody where
  | errObj (error details : String) : RespBody
  | accObj (id : String) : RespBody
  | raw (text : String) : RespBody

/-- An HTTP response: status code, Content-Type header if set, body. -/
structure Response where
  status : Nat
  contentType : Option String
  body : RespBody

/-- One log line the handler can emit (`Logger.Printf` on acceptance). -/
inductive LogLine where
  | accepted (id typ source : String) (ts : GoTime) : LogLine

/-- What one invocation of a handler produces: the response written to `w`
and the log lines emitted (its only side effect). -/
structure HandlerOutput where
  resp : Response
  logs : List LogLine

/-- Go `httpError` (event_handler.go lines 116-123): a JSON object with
`error` and `details`, Content-Type application/json, caller-chosen status.
Every call site in the handler passes `http.StatusBadRequest`. -/
def httpError (status : Nat) (message details : String) : HandlerOutput :=
  HandlerOutput.mk (Response.mk status (some "application/json") (RespBody.errObj message details)) []

/-- The timestamp defaulting of `handlePostEvent` lines 86-88: a zero
timestamp becomes `time.Now().UTC()` (`now` is the clock reading). -/
def withDefaultTimestamp (now : GoTime) (e : Event) : Event :=
  if e.Timestamp.IsZero then Event.mk e.ID e.Typ e.Source now.UTC e.Payload else e

/-- The tail of `handlePostEvent` after a successful decode and `More`
check: default the timestamp, validate, then either the 400 validation
error or the 202 acceptance (one log line, body with `status` and `id`). -/
def afterDecode (now : GoTime) (evt : Event) : HandlerOutput :=
  let e2 := withDefaultTimestamp now evt
  match e2.Validate with
  | some msg => httpError 400 "validation failed" msg
  | none =>
    HandlerOutput.mk
      (Response.mk 202 (some "application/json") (RespBody.accObj e2.ID))
      [LogLine.accepted e2.ID e2.Typ e2.Source e2.Timestamp]

/-- Go `handlePostEvent` (event_handler.go / part_001 lines 46-110) on a
request body, `now` being the wall clock at the defaulting step: decode
(1 MiB cap, unknown fields disallowed) or 400, reject trailing content via
`dec.More()` or 400, then default, validate and reply. -/
def handlePostEvent (now : GoTime) (body : List Char) : HandlerOutput :=
  match goDecode body with
  | Except.error e => httpError 400 "invalid JSON payload" e.errString
  | Except.ok (evt, rest) =>
    if goMore rest then httpError 400 "unexpected extra JSON content" "multiple JSON values"
    else afterDecode now evt

/-- Go `handleHealth` (event_handler.go lines 40-43): status 200, body `ok`,
no Content-Type set, no log, whatever the request carries. -/
def handleHealth (_requestBody : List Char) : HandlerOutput :=
  HandlerOutput.mk (Response.mk 200 none (RespBody.raw "ok")) []

/-- An arbitrary non-zero wall-clock reading in the server's local (non-UTC)
location, standing for `time.Now()` in closed statements. -/
def wallClock : GoTime := GoTime.mk 1700000000 false

/-- The round-trip request body of the spec, byte for byte:
an object with the members `id`, `type` and `source`. -/
def c1Body : List Char :=
  String.toList "\x7b\"id\":\"e1\",\"type\":\"click\",\"source\":\"web\"\x7d"

/-- A single well-formed JSON number of 2 MiB (2097154 digits), twice the
handler's 1 MiB body ceiling. -/
def c4Body : List Char := List.replicate 2097154 '1'

/-- A malformed body: a lone opening brace. -/
def c5Body : List Char := String.toList "\x7b"

/-- Unmarshalling can only succeed with the struct left at its zero value:
no json name of `Event` is visible, so no key ever assigns a field. -/
theorem decodeEvent_ok_eq (v : JSON) (e : Event) (h : decodeEvent v = Except.ok e) :
    e = zeroEvent := by
  cases v with
  | null => exact (Except.ok.inj h).symm
  | obj kvs =>
    simp only [decodeEvent] at h
    split at h
    · simp at h
    · exact (Except.ok.inj h).symm
  | bool b => simp [decodeEvent] at h
  | num s => simp [decodeEvent] at h
  | str s => simp [decodeEvent] at h
  | arr xs => simp [decodeEvent] at h

/-- A successful `Decode` hands the handler the zero `Event`. -/
theorem goDecode_ok_eq (body : List Char) (evt : Event) (rest : List Char)
    (h : goDecode body = Except.ok (evt, rest)) : evt = zeroEvent := by
  unfold goDecode at h
  split at h
  · simp at h
  · split at h
    · simp at h
    · split at h
      · simp at h
      · rename_i e hde
        have hpair := Except.ok.inj h
        have h1 : e = evt := congrArg Prod.fst hpair
        have he : e = zeroEvent := decodeEvent_ok_eq _ e hde
        rw [← h1, he]

/-- Timestamp defaulting leaves `ID` untouched. -/
theorem withDefaultTimestamp_ID (now : GoTime) (e : Event) :
    (withDefaultTimestamp now e).ID = e.ID := by
  unfold withDefaultTimestamp
  split <;> rfl

/-- Timestamp defaulting leaves `Type` untouched. -/
theorem withDefaultTimestamp_Typ (now : GoTime) (e : Event) :
    (withDefaultTimestamp now e).Typ = e.Typ := by
  unfold withDefaultTimestamp
  split <;> rfl

/-- Timestamp defaulting leaves `Source` untouched. -/
theorem withDefaultTimestamp_Source (now : GoTime) (e : Event) :
    (withDefaultTimestamp now e).Source = e.Source := by
  unfold withDefaultTimestamp
  split <;> rfl

/-- The zero event fails validation on its blank `ID`, timestamp defaulting
notwithstanding. -/
theorem validate_zero_default (now : GoTime) :
    Event.Validate (withDefaultTimestamp now zeroEvent) = some "ID is required." := by
  have h : (withDefaultTimestamp now zeroEvent).ID = "" := by
    unfold withDefaultTimestamp
    split <;> rfl
  unfold Event.Validate
  rw [h]
  rfl

/-- Every execution path of `handlePostEvent` ends in `httpError` with
status 400: a decode error, the trailing-content error, or (since a
successful decode always yields the zero event) the validation error. -/
theorem handlePost_always_error (now : GoTime) (body : List Char) :
    ∃ m d, handlePostEvent now body = httpError 400 m d := by
  cases hd : goDecode body with
  | error e =>
    refine ⟨"invalid JSON payload", e.errString, ?_⟩
    unfold handlePostEvent
    rw [hd]
  | ok p =>
    obtain ⟨evt, rest⟩ := p
    have hz : evt = zeroEvent := goDecode_ok_eq body evt rest hd
    subst hz
    by_cases hm : goMore rest
    · refine ⟨"unexpected extra JSON content", "multiple JSON values", ?_⟩
      unfold handlePostEvent
      rw [hd]
      simp [hm]
    · refine ⟨"validation failed", "ID is required.", ?_⟩
      unfold handlePostEvent
      rw [hd]
      simp only [hm, if_false, Bool.false_eq_true]
      simp only [afterDecode]
      rw [validate_zero_default]

/-- A digit string is one JSON number lexeme. -/
theorem parseNumber_ones (n : Nat) :
    parseNumber ('1' :: List.replicate n '1') = some ('1' :: List.replicate n '1', []) := by
  have h : isDigit '1' = true := by decide
  unfold parseNumber
  simp [List.takeWhile_replicate, List.dropWhile_replicate, h]

/-- The scanner consumes an all-digit input in full as one number value. -/
theorem parseValue_ones (f n : Nat) :
    parseValue (f + 1) ('1' :: List.replicate n '1') =
      some (JSON.num (String.mk ('1' :: List.replicate n '1')), []) := by
  have hws : isJsonWs '1' = false := by decide
  have hd : isDigit '1' = true := by decide
  have hnum := parseNumber_ones n
  unfold parseValue
  simp [skipWs, List.dropWhile, hws, hd, hnum]

/-- Top-level parse of an all-digit body: one number, nothing left. -/
theorem parseTop_ones (n : Nat) :
    parseTop (List.replicate (n + 1) '1') =
      some (JSON.num (String.mk (List.replicate (n + 1) '1')), []) := by
  have h : List.replicate (n + 1) '1' = '1' :: List.replicate n '1' := List.replicate_succ '1' n
  rw [parseTop, h]
  have hl : ('1' :: List.replicate n '1').length = n + 1 := by simp
  rw [hl]
  exact parseValue_ones n n

/-- An all-digit body longer than the 1 MiB cap fails `Decode` with the
`MaxBytesReader` error: the single number value runs past the ceiling. -/
theorem goDecode_ones (n : Nat) (h : 1048576 < n + 1) :
    goDecode (List.replicate (n + 1) '1') = Except.error DecodeErr.bodyTooLarge := by
  have hp := parseTop_ones n
  unfold goDecode
  rw [hp]
  have hlen : (List.replicate (n + 1) '1').length = n + 1 := List.length_replicate (n + 1) '1'
  rw [hlen]
  simp only [List.length_nil, Nat.sub_zero, maxBodyBytes]
  rw [if_pos h]

/-- The handler's response to an over-limit all-digit body: the same
status 400 and message it uses for any decode failure. -/
theorem handlePost_ones (now : GoTime) (n : Nat) (h : 1048576 < n + 1) :
    handlePostEvent now (List.replicate (n + 1) '1') =
      httpError 400 "invalid JSON payload" "http: request body too large" := by
  unfold handlePostEvent
  rw [goDecode_ones n h]
  rfl

/-- Claim C1: the spec's round trip says posting the body with members
`id:e1`, `type:click`, `source:web` is accepted with a 202-class status and
an acceptance body echoing the id.  Evaluating the handler on exactly that
body instead yields status 400 with message `invalid JSON payload` and
details `json: unknown field "id"`, whatever the clock reads: every json
tag of the `Event` struct is `id`, so all five fields collide, none is
visible to the decoder, and `DisallowUnknownFields` rejects the first key.
The acceptance response is never produced for this input. -/
theorem c1_roundtrip_body_rejected (now : GoTime) :
    handlePostEvent now c1Body =
      httpError 400 "invalid JSON payload" "json: unknown field \"id\"" := by
  rfl

/-- Claim C2: for every event whose `ID`, `Type` and `Source` are non-blank
after trimming, `Validate` returns success, and the result is the same for
any timestamp value whatsoever. -/
theorem c2_validate_nonblank_succeeds (e : Event) (t : GoTime)
    (h1 : TrimSpace e.ID ≠ "") (h2 : TrimSpace e.Typ ≠ "")
    (h3 : TrimSpace e.Source ≠ "") :
    Event.Validate e = none ∧
    Event.Validate (Event.mk e.ID e.Typ e.Source t e.Payload) = none := by
  unfold Event.Validate
  simp [h1, h2, h3]

/-- Witness for C2 at a concrete valid event, with a zero and a non-zero
timestamp. -/
theorem c2_validate_nonblank_succeeds_witness :
    TrimSpace "e1" ≠ "" ∧ TrimSpace "click" ≠ "" ∧ TrimSpace "web" ≠ "" ∧
    (Event.Validate (Event.mk "e1" "click" "web" (GoTime.mk 0 true) none) = none ∧
     Event.Validate (Event.mk "e1" "click" "web" (GoTime.mk 99 false) none) = none) :=
  ⟨by decide, by decide, by decide,
    c2_validate_nonblank_succeeds (Event.mk "e1" "click" "web" (GoTime.mk 0 true) none)
      (GoTime.mk 99 false) (by decide) (by decide) (by decide)⟩

/-- Claim C3: whenever at least one of `ID`, `Type`, `Source` is blank,
`Validate` fails, and the single reason reported is determined by the first
offending field in the order `ID`, `Type`, `Source`. -/
theorem c3_validate_first_missing_field (e : Event)
    (h : TrimSpace e.ID = "" ∨ TrimSpace e.Typ = "" ∨ TrimSpace e.Source = "") :
    Event.Validate e ≠ none ∧
    (TrimSpace e.ID = "" → Event.Validate e = some "ID is required.") ∧
    (TrimSpace e.ID ≠ "" → TrimSpace e.Typ = "" →
      Event.Validate e = some "Type is required.") ∧
    (TrimSpace e.ID ≠ "" → TrimSpace e.Typ ≠ "" → TrimSpace e.Source = "" →
      Event.Validate e = some "Source is required.") := by
  unfold Event.Validate
  by_cases hi : TrimSpace e.ID = ""
  · simp [hi]
  · by_cases ht : TrimSpace e.Typ = ""
    · simp [hi, ht]
    · by_cases hs : TrimSpace e.Source = ""
      · simp [hi, ht, hs]
      · rcases h with h | h | h <;> contradiction

/-- Witness for C3 at an event whose `ID` is blank. -/
theorem c3_validate_first_missing_field_witness :
    (TrimSpace "" = "" ∨ TrimSpace "click" = "" ∨ TrimSpace "web" = "") ∧
    (Event.Validate (Event.mk "" "click" "web" (GoTime.mk 0 true) none) ≠ none ∧
     (TrimSpace "" = "" →
       Event.Validate (Event.mk "" "click" "web" (GoTime.mk 0 true) none) =
         some "ID is required.") ∧
     (TrimSpace "" ≠ "" → TrimSpace "click" = "" →
       Event.Validate (Event.mk "" "click" "web" (GoTime.mk 0 true) none) =
         some "Type is required.") ∧
     (TrimSpace "" ≠ "" → TrimSpace "click" ≠ "" → TrimSpace "web" = "" →
       Event.Validate (Event.mk "" "click" "web" (GoTime.mk 0 true) none) =
         some "Source is required.")) :=
  ⟨Or.inl (by decide),
    c3_validate_first_missing_field (Event.mk "" "click" "web" (GoTime.mk 0 true) none)
      (Or.inl (by decide))⟩

/-- Claim C4, corrected: a body over the 1 MiB ceiling is rejected with a
4xx status, but that status is the handler's plain 400 decode-error
response, not a distinct request-entity-too-large status: every decode
failure, the size violation included, flows into the same
`httpError(w, http.StatusBadRequest, "invalid JSON payload", err)` call. -/
theorem c4_large_body_rejected_400 (now : GoTime) (body : List Char)
    (_h : 1048576 < body.length) :
    ∃ m d, handlePostEvent now body = httpError 400 m d :=
  handlePost_always_error now body

/-- Witness for C4 at the concrete 2 MiB body. -/
theorem c4_large_body_rejected_400_witness :
    1048576 < c4Body.length ∧
    ∃ m d, handlePostEvent wallClock c4Body = httpError 400 m d := by
  have hn : (2097154 : Nat) = 2097153 + 1 := by norm_num
  have hb : c4Body = List.replicate (2097153 + 1) '1' :=
    congrArg (fun m => List.replicate m '1') hn
  have hlen : 1048576 < c4Body.length := by
    rw [hb, List.length_replicate]
    norm_num
  exact ⟨hlen, c4_large_body_rejected_400 wallClock c4Body hlen⟩

/-- Counterexample to C4 as stated: a well-formed 2 MiB JSON number body
(2097154 bytes, over the 1 MiB cap) is answered with status 400 — equal to
the generic decode-error response, message `invalid JSON payload` — and not
with 413 request entity too large; only the `details` text records the
`MaxBytesReader` cause. -/
theorem c4_large_body_counterexample :
    c4Body.length = 2097154 ∧ 1048576 < c4Body.length ∧
    handlePostEvent wallClock c4Body =
      httpError 400 "invalid JSON payload" "http: request body too large" ∧
    (400 : Nat) ≠ 413 := by
  have hn : (2097154 : Nat) = 2097153 + 1 := by norm_num
  have hb : c4Body = List.replicate (2097153 + 1) '1' :=
    congrArg (fun m => List.replicate m '1') hn
  have hlen : c4Body.length = 2097154 := by rw [hb, List.length_replicate]
  refine ⟨hlen, by rw [hlen]; norm_num, ?_, by norm_num⟩
  rw [hb]
  exact handlePost_ones wallClock 2097153 (by norm_num)

/-- Claim C5: a malformed body, a body whose object carries a key the
decoder does not know, or a body with content after the first JSON value,
is answered with status 400 and never with the acceptance object. -/
theorem c5_bad_json_rejected (now : GoTime) (body : List Char)
    (_h : parseTop body = none ∨
      (∃ kvs rest kv, parseTop body = some (JSON.obj kvs, rest) ∧
        kv ∈ kvs ∧ jsonNameVisible kv.fst = false) ∨
      (∃ v rest, parseTop body = some (v, rest) ∧ skipWs rest ≠ [])) :
    (handlePostEvent now body).resp.status = 400 ∧
    ∀ i, (handlePostEvent now body).resp.body ≠ RespBody.accObj i := by
  obtain ⟨m, d, hmd⟩ := handlePost_always_error now body
  rw [hmd]
  refine ⟨rfl, ?_⟩
  intro i hbad
  simp [httpError] at hbad

/-- Witness for C5 at the malformed one-brace body. -/
theorem c5_bad_json_rejected_witness :
    (parseTop c5Body = none ∨
      (∃ kvs rest kv, parseTop c5Body = some (JSON.obj kvs, rest) ∧
        kv ∈ kvs ∧ jsonNameVisible kv.fst = false) ∨
      (∃ v rest, parseTop c5Body = some (v, rest) ∧ skipWs rest ≠ [])) ∧
    ((handlePostEvent wallClock c5Body).resp.status = 400 ∧
     ∀ i, (handlePostEvent wallClock c5Body).resp.body ≠ RespBody.accObj i) :=
  ⟨Or.inl rfl, c5_bad_json_rejected wallClock c5Body (Or.inl rfl)⟩

/-- Claim C6: whenever decoding succeeds the decoded timestamp is zero (no
json field of `Event` is visible, so none is ever set), the handler
replaces it with the clock reading normalized to UTC before validation
runs, and — the clock not being the zero time — the event validation sees
carries a populated, non-zero, UTC timestamp. -/
theorem c6_timestamp_defaulted_utc (now : GoTime) (body : List Char)
    (evt : Event) (rest : List Char)
    (hdec : goDecode body = Except.ok (evt, rest)) (hnz : now.IsZero = false) :
    evt.Timestamp.IsZero = true ∧
    (withDefaultTimestamp now evt).Timestamp = now.UTC ∧
    (withDefaultTimestamp now evt).Timestamp.IsZero = false ∧
    (withDefaultTimestamp now evt).Timestamp.utc = true := by
  have hz : evt = zeroEvent := goDecode_ok_eq body evt rest hdec
  subst hz
  exact ⟨rfl, rfl, hnz, rfl⟩

/-- Witness for C6 at the body `null` and a non-zero local-time clock. -/
theorem c6_timestamp_defaulted_utc_witness :
    (goDecode (String.toList "null") = Except.ok (zeroEvent, []) ∧
     wallClock.IsZero = false) ∧
    (zeroEvent.Timestamp.IsZero = true ∧
     (withDefaultTimestamp wallClock zeroEvent).Timestamp = wallClock.UTC ∧
     (withDefaultTimestamp wallClock zeroEvent).Timestamp.IsZero = false ∧
     (withDefaultTimestamp wallClock zeroEvent).Timestamp.utc = true) :=
  ⟨⟨rfl, rfl⟩,
    c6_timestamp_defaulted_utc wallClock (String.toList "null") zeroEvent [] rfl rfl⟩

/-- Claim C7: every response `handlePostEvent` can write is a rejection
carrying the JSON error envelope with `error` and `details` fields and the
4xx status 400; in particular no execution path of the handler produces a
5xx status. -/
theorem c7_error_contract_no_5xx (now : GoTime) (body : List Char) :
    ∃ m d,
      (handlePostEvent now body).resp.status = 400 ∧
      (handlePostEvent now body).resp.status < 500 ∧
      (handlePostEvent now body).resp.body = RespBody.errObj m d := by
  obtain ⟨m, d, hmd⟩ := handlePost_always_error now body
  rw [hmd]
  exact ⟨m, d, rfl, by norm_num [httpError], rfl⟩

/-- Claim C8: `handleHealth` answers every request with status 200 and the
literal text body `ok`, emits no log line, and its output never depends on
the request (hence not on any prior request history). -/
theorem c8_health_always_ok (b1 b2 : List Char) :
    handleHealth b1 = HandlerOutput.mk (Response.mk 200 none (RespBody.raw "ok")) [] ∧
    handleHealth b1 = handleHealth b2 :=
  ⟨rfl, rfl⟩

/-- Claim C9: `Validate` reads only `ID`, `Type` and `Source`: two events
agreeing on those three fields validate identically, whatever their
`Timestamp` and `Payload` hold. -/
theorem c9_validate_reads_only_id_type_source (e1 e2 : Event)
    (h1 : e1.ID = e2.ID) (h2 : e1.Typ = e2.Typ) (h3 : e1.Source = e2.Source) :
    Event.Validate e1 = Event.Validate e2 := by
  unfold Event.Validate
  rw [h1, h2, h3]

/-- Witness for C9: two events equal on the three validated fields but
differing in timestamp and payload validate identically. -/
theorem c9_validate_reads_only_id_type_source_witness :
    ((Event.mk "e1" "click" "web" (GoTime.mk 0 true) none).ID =
       (Event.mk "e1" "click" "web" (GoTime.mk 987654 false) (some (JSON.str "blob"))).ID ∧
     (Event.mk "e1" "click" "web" (GoTime.mk 0 true) none).Typ =
       (Event.mk "e1" "click" "web" (GoTime.mk 987654 false) (some (JSON.str "blob"))).Typ ∧
     (Event.mk "e1" "click" "web" (GoTime.mk 0 true) none).Source =
       (Event.mk "e1" "click" "web" (GoTime.mk 987654 false) (some (JSON.str "blob"))).Source) ∧
    Event.Validate (Event.mk "e1" "click" "web" (GoTime.mk 0 true) none) =
      Event.Validate (Event.mk "e1" "click" "web" (GoTime.mk 987654 false) (some (JSON.str "blob"))) :=
  ⟨⟨rfl, rfl, rfl⟩,
    c9_validate_reads_only_id_type_source
      (Event.mk "e1" "click" "web" (GoTime.mk 0 true) none)
      (Event.mk "e1" "click" "web" (GoTime.mk 987654 false) (some (JSON.str "blob")))
      rfl rfl rfl⟩

/-- Claim C10: an event whose fields are non-blank under trimming passes
validation even when `ID` carries surrounding white space, and the
acceptance stage echoes `ID` exactly as stored — the trimming used inside
`Validate` is never applied to the echoed or logged values. -/
theorem c10_accepted_id_echoed_verbatim (now : GoTime) (e : Event)
    (h1 : TrimSpace e.ID ≠ "") (h2 : TrimSpace e.Typ ≠ "")
    (h3 : TrimSpace e.Source ≠ "") :
    Event.Validate (withDefaultTimestamp now e) = none ∧
    afterDecode now e =
      HandlerOutput.mk
        (Response.mk 202 (some "application/json") (RespBody.accObj e.ID))
        [LogLine.accepted e.ID e.Typ e.Source (withDefaultTimestamp now e).Timestamp] := by
  have hval : Event.Validate (withDefaultTimestamp now e) = none := by
    unfold Event.Validate
    rw [withDefaultTimestamp_ID, withDefaultTimestamp_Typ, withDefaultTimestamp_Source]
    simp [h1, h2, h3]
  refine ⟨hval, ?_⟩
  simp only [afterDecode]
  rw [hval, withDefaultTimestamp_ID, withDefaultTimestamp_Typ, withDefaultTimestamp_Source]

/-- Witness for C10 at an event whose id is ` e1 `: validation passes and
the acceptance body holds the id with its white space intact. -/
theorem c10_accepted_id_echoed_verbatim_witness :
    (TrimSpace " e1 " ≠ "" ∧ TrimSpace "click" ≠ "" ∧ TrimSpace "web" ≠ "") ∧
    (Event.Validate (withDefaultTimestamp wallClock (Event.mk " e1 " "click" "web" (GoTime.mk 0 true) none)) = none ∧
     afterDecode wallClock (Event.mk " e1 " "click" "web" (GoTime.mk 0 true) none) =
       HandlerOutput.mk
         (Response.mk 202 (some "application/json") (RespBody.accObj " e1 "))
         [LogLine.accepted " e1 " "click" "web"
           (withDefaultTimestamp wallClock (Event.mk " e1 " "click" "web" (GoTime.mk 0 true) none)).Timestamp]) :=
  ⟨⟨by decide, by decide, by decide⟩,
    c10_accepted_id_echoed_verbatim wallClock
      (Event.mk " e1 " "click" "web" (GoTime.mk 0 true) none)
      (by decide) (by decide) (by decide)⟩
